import Mathlib

/-!
Shallow embedding of the SuperTuxKart excerpt consisting of
`src/physics/physical_object.hpp` and `src/player_kart.hpp`.

The repository excerpt contains only the two header files; every member
function whose body is not written inline in a header (`reset`, `update`,
`init`, `castRay`, `addBody`, `removeBody` of `PhysicalObject`, and
`action`, `steer`, `update`, `reset` of `PlayerKart`) is therefore
modelled from the specification, as marked in the doc comment of each
such definition.  C++ floats are modelled as exact rationals, C++ enums
as their underlying integer codes (so that values outside the declared
enumerators can be expressed), and pointers that may be null as `Option`.
-/

/-- Three-component vector over exact rationals; models `btVector3`,
`Vec3` and `core::vector3df` of the source. -/
structure Vec3 where
  x : ℚ
  y : ℚ
  z : ℚ
deriving DecidableEq

/-- Componentwise vector addition. -/
def Vec3.add (a b : Vec3) : Vec3 := ⟨a.x + b.x, a.y + b.y, a.z + b.z⟩

/-- Componentwise vector subtraction. -/
def Vec3.sub (a b : Vec3) : Vec3 := ⟨a.x - b.x, a.y - b.y, a.z - b.z⟩

/-- Scalar multiplication of a vector. -/
def Vec3.smul (t : ℚ) (a : Vec3) : Vec3 := ⟨t * a.x, t * a.y, t * a.z⟩

/-- The zero vector. -/
def Vec3.zero : Vec3 := ⟨0, 0, 0⟩

/-- Orientation, modelled as an exact quaternion record (models
`btQuaternion`; the heading/pitch/roll representation of the source is
an equivalent encoding for the purposes of the claims, which only ever
compare orientations for equality). -/
structure Quat where
  qx : ℚ
  qy : ℚ
  qz : ℚ
  qw : ℚ
deriving DecidableEq

/-- Rigid-body transform: an origin and a rotation (models `btTransform`). -/
structure Transform where
  origin : Vec3
  rotation : Quat
deriving DecidableEq

/-- The transform state of the owning scene object (`TrackObject`): the
position and orientation that `PhysicalObject::update` writes back. -/
structure TrackObject where
  position : Vec3
  rotation : Quat
deriving DecidableEq

/-- State of a Bullet rigid body as far as the claims are concerned:
its center-of-mass transform and its linear and angular velocities
(models `btRigidBody`). -/
structure RigidBody where
  transform : Transform
  linear_velocity : Vec3
  angular_velocity : Vec3
deriving DecidableEq

/-- The supported collision shapes, from `physical_object.hpp`:
`enum BodyTypes {MP_NONE, MP_CONE_Y, MP_CONE_X, MP_CONE_Z, MP_CYLINDER_Y,
MP_CYLINDER_X, MP_CYLINDER_Z, MP_BOX, MP_SPHERE, MP_EXACT}`. -/
inductive BodyTypes where
  | MP_NONE
  | MP_CONE_Y
  | MP_CONE_X
  | MP_CONE_Z
  | MP_CYLINDER_Y
  | MP_CYLINDER_X
  | MP_CYLINDER_Z
  | MP_BOX
  | MP_SPHERE
  | MP_EXACT
deriving DecidableEq

/-- The underlying C++ integer code of each enumerator of `BodyTypes`
(`MP_NONE` = 0 through `MP_EXACT` = 9, the default C++ enum numbering).
A C++ variable of type `BodyTypes` stores an arbitrary integer, so an
unrecognized shape value is an integer outside 0..9. -/
def bodyTypeOfCode (c : Int) : Option BodyTypes :=
  if c = 0 then some .MP_NONE
  else if c = 1 then some .MP_CONE_Y
  else if c = 2 then some .MP_CONE_X
  else if c = 3 then some .MP_CONE_Z
  else if c = 4 then some .MP_CYLINDER_Y
  else if c = 5 then some .MP_CYLINDER_X
  else if c = 6 then some .MP_CYLINDER_Z
  else if c = 7 then some .MP_BOX
  else if c = 8 then some .MP_SPHERE
  else if c = 9 then some .MP_EXACT
  else none

/-- A Bullet collision shape as built by `PhysicalObject::init`
(models `btCollisionShape`); the axis argument of cones and cylinders
is 0 for X, 1 for Y, 2 for Z. -/
inductive CollisionShape where
  | cone (axis : Fin 3) (radius : ℚ)
  | cylinder (axis : Fin 3) (radius : ℚ)
  | box (half_extent : ℚ)
  | sphere (radius : ℚ)
  | exactMesh (radius : ℚ)
deriving DecidableEq

/-- Modelled from the spec: the shape built by `PhysicalObject::init`
(implementation not under src/) for each recognized enumerator —
"builds the collision shape matching the shape enumeration (primitive
shapes parameterized by radius along the specified axis; exact shape
builds or reuses a triangle-mesh collision shape)"; `MP_NONE` produces
no shape. -/
def shapeOfType (bt : BodyTypes) (r : ℚ) : Option CollisionShape :=
  match bt with
  | .MP_NONE => none
  | .MP_CONE_Y => some (.cone 1 r)
  | .MP_CONE_X => some (.cone 0 r)
  | .MP_CONE_Z => some (.cone 2 r)
  | .MP_CYLINDER_Y => some (.cylinder 1 r)
  | .MP_CYLINDER_X => some (.cylinder 0 r)
  | .MP_CYLINDER_Z => some (.cylinder 2 r)
  | .MP_BOX => some (.box r)
  | .MP_SPHERE => some (.sphere r)
  | .MP_EXACT => some (.exactMesh r)

/-- Modelled from the spec: the shape-selection switch of
`PhysicalObject::init` over the stored integer shape value — "Fails
(silently degrades to shape = none) if the shape enumeration value is
unrecognized". -/
def shapeOfCode (c : Int) (r : ℚ) : Option CollisionShape :=
  match bodyTypeOfCode c with
  | some bt => shapeOfType bt r
  | none => none

/-- Axis-aligned bounding half-extents of a collision shape, centered at
the body origin; used by the ray-cast model. -/
def CollisionShape.halfExtents : CollisionShape → Vec3
  | .cone _ r => ⟨r, r, r⟩
  | .cylinder _ r => ⟨r, r, r⟩
  | .box r => ⟨r, r, r⟩
  | .sphere r => ⟨r, r, r⟩
  | .exactMesh r => ⟨r, r, r⟩

/-- State of one `PhysicalObject` (fields of `physical_object.hpp`; the
fields that only matter to subsystems outside the excerpt — id string,
user pointer, triangle-mesh pointer, scale, behavioral flags not used by
any claim — are omitted).  `m_body_type` is kept as the raw C++ integer
so that unrecognized enumeration values are expressible;
`m_registrations` counts how many times the body is currently added to
the physics world (a correct state has at most one). -/
structure PhysicalObject where
  m_body_type : Int
  m_shape : Option CollisionShape
  m_body : RigidBody
  m_motion_state : Transform
  m_init_pos : Transform
  m_init_xyz : Vec3
  m_init_hpr : Quat
  m_graphical_offset : Vec3
  m_radius : ℚ
  m_mass : ℚ
  m_crash_reset : Bool
  m_reset_when_too_low : Bool
  m_reset_height : ℚ
  m_is_dynamic : Bool
  m_registrations : Nat
  m_object : TrackObject
deriving DecidableEq

/-- The settings bundle of `PhysicalObject::Settings`
(`physical_object.hpp`), restricted to the fields the claims use. -/
structure Settings where
  m_mass : ℚ
  m_radius : ℚ
  m_body_type : Int
  m_crash_reset : Bool
  m_reset_when_too_low : Bool
  m_reset_height : ℚ
deriving DecidableEq

/-- Modelled from the spec: the `PhysicalObject` constructor
(implementation not under src/) — captures the scene object's initial
transform as an immutable snapshot and stores the settings; the physics
body is not yet created (`init` is deferred). -/
def PhysicalObject.construct (is_dynamic : Bool) (s : Settings)
    (obj : TrackObject) : PhysicalObject :=
  { m_body_type := s.m_body_type
    m_shape := none
    m_body := ⟨⟨obj.position, obj.rotation⟩, Vec3.zero, Vec3.zero⟩
    m_motion_state := ⟨obj.position, obj.rotation⟩
    m_init_pos := ⟨obj.position, obj.rotation⟩
    m_init_xyz := obj.position
    m_init_hpr := obj.rotation
    m_graphical_offset := Vec3.zero
    m_radius := s.m_radius
    m_mass := s.m_mass
    m_crash_reset := s.m_crash_reset
    m_reset_when_too_low := s.m_reset_when_too_low
    m_reset_height := s.m_reset_height
    m_is_dynamic := is_dynamic
    m_registrations := 0
    m_object := obj }

/-- Modelled from the spec: `PhysicalObject::init` (implementation not
under src/) — derives the final radius (from settings if positive, else
from the mesh bounding volume), builds the collision shape matching the
stored shape value (an unrecognized value silently degrades to no
shape), computes the graphical offset aligning the visual mesh with the
shape's physical center, places the rigid body and motion state at the
captured initial transform shifted by that offset, and registers the
body with the physics world. -/
def PhysicalObject.init (o : PhysicalObject) (mesh_radius : ℚ)
    (offset : Vec3) : PhysicalObject :=
  let r := if 0 < o.m_radius then o.m_radius else mesh_radius
  let start : Transform := ⟨Vec3.add o.m_init_xyz offset, o.m_init_hpr⟩
  { o with
    m_radius := r
    m_shape := shapeOfCode o.m_body_type r
    m_graphical_offset := offset
    m_init_pos := start
    m_body := ⟨start, Vec3.zero, Vec3.zero⟩
    m_motion_state := start
    m_registrations := 1 }

/-- The object has a collision shape, i.e. is solid rather than
passable. -/
def PhysicalObject.isSolid (o : PhysicalObject) : Bool :=
  o.m_shape.isSome

/-- Modelled from the spec: `PhysicalObject::reset` (implementation not
under src/) — "restores the rigid body's transform to the captured
initial transform and zeroes any residual linear/angular velocity"; the
motion state is kept consistent with the body. -/
def PhysicalObject.reset (o : PhysicalObject) : PhysicalObject :=
  { o with
    m_body := ⟨o.m_init_pos, Vec3.zero, Vec3.zero⟩
    m_motion_state := o.m_init_pos }

/-- The height-based reset condition of `PhysicalObject::update`: the
reset-when-too-low flag is set and the body's current height is below
the reset height. -/
def PhysicalObject.tooLow (o : PhysicalObject) : Bool :=
  o.m_reset_when_too_low && decide (o.m_body.transform.origin.y < o.m_reset_height)

/-- The object after the height-based reset check of
`PhysicalObject::update`: reset if `tooLow`, unchanged otherwise. -/
def PhysicalObject.afterHeightCheck (o : PhysicalObject) : PhysicalObject :=
  if o.tooLow then o.reset else o

/-- Modelled from the spec: `PhysicalObject::update(dt)` (implementation
not under src/) — "for dynamic bodies only, reads the simulated
transform from the motion state and writes it back to the owning scene
object (position + orientation), applying the graphical offset
correction; if reset_when_too_low is set and the current height drops
below reset_height, triggers reset(). No-op for static/kinematic bodies
beyond optional height-based reset check." -/
def PhysicalObject.update (o : PhysicalObject) (_dt : ℚ) : PhysicalObject :=
  let o1 := o.afterHeightCheck
  if o1.m_is_dynamic then
    { o1 with
      m_object :=
        ⟨Vec3.sub o1.m_motion_state.origin o1.m_graphical_offset,
         o1.m_motion_state.rotation⟩ }
  else o1

/-- Modelled from the spec: `PhysicalObject::addBody` (implementation
not under src/) — an "explicit, idempotent world-registration toggle":
registers the body with the physics world unless it is already
registered. -/
def PhysicalObject.addBody (o : PhysicalObject) : PhysicalObject :=
  if o.m_registrations = 0 then { o with m_registrations := 1 } else o

/-- Modelled from the spec: `PhysicalObject::removeBody` (implementation
not under src/) — an "explicit, idempotent world-registration toggle":
removes the body from the physics world if it is registered, and leaves
the state unchanged otherwise. -/
def PhysicalObject.removeBody (o : PhysicalObject) : PhysicalObject :=
  if o.m_registrations = 0 then o
  else { o with m_registrations := o.m_registrations - 1 }

/-- A world-registration operation: one call to `addBody` or
`removeBody`. -/
inductive WorldOp where
  | add
  | remove
deriving DecidableEq

/-- Apply one world-registration operation. -/
def applyWorldOp (o : PhysicalObject) : WorldOp → PhysicalObject
  | .add => o.addBody
  | .remove => o.removeBody

/-- Apply a sequence of world-registration operations, first element
first. -/
def applyWorldOps (o : PhysicalObject) : List WorldOp → PhysicalObject
  | [] => o
  | op :: ops => applyWorldOps (applyWorldOp o op) ops

/-- Consistency between the captured body start transform and the
captured scene transform, established by `init`: the body's initial
transform is the scene snapshot shifted by the graphical offset. -/
def PhysicalObject.offsetConsistent (o : PhysicalObject) : Prop :=
  o.m_init_pos.origin = Vec3.add o.m_init_xyz o.m_graphical_offset ∧
  o.m_init_pos.rotation = o.m_init_hpr

/-- Membership of a point on the closed segment between two points. -/
def onSegment (a b p : Vec3) : Prop :=
  ∃ t : ℚ, 0 ≤ t ∧ t ≤ 1 ∧ p = Vec3.add a (Vec3.smul t (Vec3.sub b a))

/-- Parameter interval for which the ray point `p + t * d` lies inside
the one-dimensional slab `[mn, mx]`; `none` when the line misses the
slab entirely (zero direction component outside the slab). -/
def slabInterval (p d mn mx : ℚ) : Option (ℚ × ℚ) :=
  if d = 0 then
    if mn ≤ p ∧ p ≤ mx then some (0, 1) else none
  else
    let t0 := (mn - p) / d
    let t1 := (mx - p) / d
    if t0 ≤ t1 then some (t0, t1) else some (t1, t0)

/-- Entry point of the segment from `a` to `b` into the axis-aligned box
with center `c` and half-extents `he` (slab method): the three per-axis
parameter intervals are intersected with each other and with `[0, 1]`,
and the point at the smallest remaining parameter is returned; `none`
when the intersection is empty. -/
def segmentBoxHit (a b c he : Vec3) : Option Vec3 :=
  (slabInterval a.x (Vec3.sub b a).x (c.x - he.x) (c.x + he.x)).bind fun ix =>
  (slabInterval a.y (Vec3.sub b a).y (c.y - he.y) (c.y + he.y)).bind fun iy =>
  (slabInterval a.z (Vec3.sub b a).z (c.z - he.z) (c.z + he.z)).bind fun iz =>
  let tmin := max (max (max ix.1 iy.1) iz.1) 0
  let tmax := min (min (min ix.2 iy.2) iz.2) 1
  if tmin ≤ tmax then some (Vec3.add a (Vec3.smul tmin (Vec3.sub b a)))
  else none

/-- Modelled from the spec: `PhysicalObject::castRay` (implementation
not under src/; the source delegates to Bullet's ray cast) — a
"point-of-contact query against this object's shape between two world
points" that "must return no-hit distinguishably from a hit at the ray
origin".  The shape query is modelled exactly as a segment-versus-
bounding-box intersection (slab method) around the body origin,
returning the entry point on the segment, or `none` when the segment
misses the shape (or the object has no shape). -/
def PhysicalObject.castRay (o : PhysicalObject) (a b : Vec3) : Option Vec3 :=
  match o.m_shape with
  | none => none
  | some s => segmentBoxHit a b o.m_body.transform.origin s.halfExtents

/-- The kart input actions, from the `KartActions` enum referenced by
`player_kart.hpp` (the enum itself lives in `kart.hpp`, which is not
part of the excerpt; the spec lists "steer-left, steer-right,
accelerate, brake, fire, etc."). -/
inductive KartActions where
  | KC_LEFT
  | KC_RIGHT
  | KC_ACCEL
  | KC_BRAKE
  | KC_FIRE
deriving DecidableEq

/-- The underlying C++ integer code of each recognized `KartActions`
enumerator (default numbering); an unrecognized action is any integer
outside this range. -/
def kartActionOfCode (c : Int) : Option KartActions :=
  if c = 0 then some .KC_LEFT
  else if c = 1 then some .KC_RIGHT
  else if c = 2 then some .KC_ACCEL
  else if c = 3 then some .KC_BRAKE
  else if c = 4 then some .KC_FIRE
  else none

/-- Input state of one `PlayerKart` (`player_kart.hpp`): the current
steering target, the separately tracked left and right steering inputs,
the accelerator value, the brake and fire inputs, and the early-start
penalty countdown timer. -/
structure PlayerKart where
  m_steer_val : Int
  m_steer_val_l : Int
  m_steer_val_r : Int
  m_accel_val : Int
  m_brake_val : Int
  m_fire_val : Int
  m_penalty_time : ℚ
deriving DecidableEq

/-- The `PlayerKart` constructor of `player_kart.hpp`: its initializer
list sets `m_penalty_time(0.0)` and its body calls `reset()`;
`PlayerKart::reset` (implementation not under src/) is modelled from the
spec as clearing the transient control state. -/
def PlayerKart.construct : PlayerKart :=
  { m_steer_val := 0
    m_steer_val_l := 0
    m_steer_val_r := 0
    m_accel_val := 0
    m_brake_val := 0
    m_fire_val := 0
    m_penalty_time := 0 }

/-- From `player_kart.hpp`:
`int earlyStartPenalty () {return m_penalty_time>0; }` (the C++ bool is
converted to the ints 1 and 0). -/
def PlayerKart.earlyStartPenalty (k : PlayerKart) : Int :=
  if 0 < k.m_penalty_time then 1 else 0

/-- From `player_kart.hpp`: `int isPlayerKart () const {return 1;}`. -/
def PlayerKart.isPlayerKart (_k : PlayerKart) : Int := 1

/-- Modelled from the spec: `PlayerKart::update(dt)` (implementation not
under src/) — "advances the penalty timer (counts down to zero,
clamped)" before feeding the input state to the base kart. -/
def PlayerKart.update (k : PlayerKart) (dt : ℚ) : PlayerKart :=
  { k with m_penalty_time := max (k.m_penalty_time - dt) 0 }

/-- Iterate `PlayerKart.update` a given number of frames with a fixed
time step. -/
def PlayerKart.updateN (k : PlayerKart) : Nat → ℚ → PlayerKart
  | 0, _ => k
  | n + 1, dt => (k.update dt).updateN n dt

/-- Modelled from the spec: `PlayerKart::action` (implementation not
under src/) — "dispatches a named input action with an integer value to
the corresponding internal input field; unrecognized actions are
ignored"; steering "separately tracks left/right input magnitudes so
opposing inputs cancel", the net steering target being the right input
minus the left input. -/
def PlayerKart.action (k : PlayerKart) (code : Int) (value : Int) : PlayerKart :=
  match kartActionOfCode code with
  | some .KC_LEFT =>
    { k with m_steer_val_l := value, m_steer_val := k.m_steer_val_r - value }
  | some .KC_RIGHT =>
    { k with m_steer_val_r := value, m_steer_val := value - k.m_steer_val_l }
  | some .KC_ACCEL => { k with m_accel_val := value }
  | some .KC_BRAKE => { k with m_brake_val := value }
  | some .KC_FIRE => { k with m_fire_val := value }
  | none => k

/-! Helper lemmas shared by the claim theorems. -/

/-- Subtracting a vector after adding it is the identity. -/
theorem Vec3.add_sub_cancel_model (a b : Vec3) : Vec3.sub (Vec3.add a b) b = a := by
  cases a
  cases b
  simp [Vec3.add, Vec3.sub]

/-- Resetting twice is the same as resetting once. -/
theorem PhysicalObject.reset_reset (o : PhysicalObject) :
    o.reset.reset = o.reset := rfl

/-- The height check after a reset leaves the reset state unchanged. -/
theorem PhysicalObject.reset_afterHeightCheck (o : PhysicalObject) :
    o.reset.afterHeightCheck = o.reset := by
  unfold PhysicalObject.afterHeightCheck
  split
  · rfl
  · rfl

/-- The height check never changes the dynamic flag. -/
theorem PhysicalObject.afterHeightCheck_is_dynamic (o : PhysicalObject) :
    o.afterHeightCheck.m_is_dynamic = o.m_is_dynamic := by
  unfold PhysicalObject.afterHeightCheck
  split <;> rfl

/-- The height check never changes the graphical offset. -/
theorem PhysicalObject.afterHeightCheck_offset (o : PhysicalObject) :
    o.afterHeightCheck.m_graphical_offset = o.m_graphical_offset := by
  unfold PhysicalObject.afterHeightCheck
  split <;> rfl

/-! Concrete inputs used by the witness theorems. -/

/-- A concrete scene object. -/
def sampleTrackObject : TrackObject := ⟨⟨1, 2, 3⟩, ⟨0, 0, 0, 1⟩⟩

/-- Concrete settings for a box-shaped object (shape code 7 = MP_BOX). -/
def sampleSettings : Settings := ⟨5, 1, 7, false, false, 0⟩

/-- A concrete dynamic box object after construction and init. -/
def sampleObject : PhysicalObject :=
  (PhysicalObject.construct true sampleSettings sampleTrackObject).init 1 ⟨0, 0, 1⟩

/-- A concrete static object, constructed but not initialized. -/
def sampleStatic : PhysicalObject :=
  PhysicalObject.construct false sampleSettings sampleTrackObject

/-- A concrete object whose stored shape value 42 is not a recognized
enumerator. -/
def unknownShapeObject : PhysicalObject :=
  PhysicalObject.construct false ⟨0, 1, 42, false, false, 0⟩ sampleTrackObject

/-- A concrete sphere-shaped object (shape code 8 = MP_SPHERE). -/
def sphereObject : PhysicalObject :=
  PhysicalObject.construct true ⟨5, 1, 8, false, false, 0⟩ sampleTrackObject

/-- A concrete unit box at origin ⟨1, 2, 4⟩ for the ray-cast witness. -/
def rayObject : PhysicalObject :=
  { m_body_type := 7
    m_shape := some (.box 1)
    m_body := ⟨⟨⟨1, 2, 4⟩, ⟨0, 0, 0, 1⟩⟩, Vec3.zero, Vec3.zero⟩
    m_motion_state := ⟨⟨1, 2, 4⟩, ⟨0, 0, 0, 1⟩⟩
    m_init_pos := ⟨⟨1, 2, 4⟩, ⟨0, 0, 0, 1⟩⟩
    m_init_xyz := ⟨1, 2, 4⟩
    m_init_hpr := ⟨0, 0, 0, 1⟩
    m_graphical_offset := Vec3.zero
    m_radius := 1
    m_mass := 5
    m_crash_reset := false
    m_reset_when_too_low := false
    m_reset_height := 0
    m_is_dynamic := true
    m_registrations := 1
    m_object := ⟨⟨1, 2, 4⟩, ⟨0, 0, 0, 1⟩⟩ }

/-- A concrete kart with a positive penalty timer. -/
def kLate : PlayerKart :=
  { PlayerKart.construct with m_penalty_time := 2 }

/-! Claim theorems. -/

/-- C10: isPlayerKart() returns the constant 1 regardless of the kart's
state. -/
theorem isPlayerKart_constant_one (k : PlayerKart) : k.isPlayerKart = 1 := rfl

/-- C7: action(steer-left, 1) followed by action(steer-right, 1) yields
zero net steering; the left and right inputs are tracked separately
(both end up 1) and cancel in the steering target. -/
theorem steer_left_right_cancel (k : PlayerKart) :
    ((k.action 0 1).action 1 1).m_steer_val = 0 ∧
    ((k.action 0 1).action 1 1).m_steer_val_l = 1 ∧
    ((k.action 0 1).action 1 1).m_steer_val_r = 1 := by
  simp [PlayerKart.action, kartActionOfCode]

/-- C9: an action value that is not a recognized KartActions enumerator
is ignored; the kart's entire input state is unchanged. -/
theorem unrecognized_action_ignored (k : PlayerKart) (code v : Int)
    (h : kartActionOfCode code = none) :
    k.action code v = k := by
  unfold PlayerKart.action
  rw [h]

/-- Witness for C9 at the unrecognized action code 99. -/
theorem unrecognized_action_ignored_witness :
    kartActionOfCode 99 = none ∧
    PlayerKart.construct.action 99 5 = PlayerKart.construct :=
  ⟨rfl, unrecognized_action_ignored PlayerKart.construct 99 5 rfl⟩

/-- C3: when the stored shape value is not a recognized BodyTypes
enumerator, init() produces no collision shape and the object is
non-solid (the model is a total function, so no error is raised). -/
theorem init_unrecognized_shape_none (o : PhysicalObject) (mr : ℚ) (off : Vec3)
    (h : bodyTypeOfCode o.m_body_type = none) :
    (o.init mr off).m_shape = none ∧ (o.init mr off).isSolid = false := by
  have hs : (o.init mr off).m_shape = none := by
    simp [PhysicalObject.init, shapeOfCode, h]
  exact ⟨hs, by simp [PhysicalObject.isSolid, hs]⟩

/-- Witness for C3 at the unrecognized shape value 42. -/
theorem init_unrecognized_shape_none_witness :
    bodyTypeOfCode unknownShapeObject.m_body_type = none ∧
    (unknownShapeObject.init 1 Vec3.zero).m_shape = none ∧
    (unknownShapeObject.init 1 Vec3.zero).isSolid = false :=
  ⟨rfl, init_unrecognized_shape_none unknownShapeObject 1 Vec3.zero rfl⟩

/-- C4: for every recognized shape enumerator, init() produces a
non-null collision shape, except MP_NONE, for which no shape is produced
and the object is passable. -/
theorem init_recognized_shape_some (o : PhysicalObject) (mr : ℚ) (off : Vec3)
    (bt : BodyTypes) (h : bodyTypeOfCode o.m_body_type = some bt) :
    (bt ≠ BodyTypes.MP_NONE → ∃ s, (o.init mr off).m_shape = some s) ∧
    (bt = BodyTypes.MP_NONE →
      (o.init mr off).m_shape = none ∧ (o.init mr off).isSolid = false) := by
  have hs : (o.init mr off).m_shape =
      shapeOfType bt (if 0 < o.m_radius then o.m_radius else mr) := by
    simp [PhysicalObject.init, shapeOfCode, h]
  constructor
  · intro hne
    cases bt <;> simp_all [shapeOfType]
  · intro he
    subst he
    simp [hs, shapeOfType, PhysicalObject.isSolid]

/-- Witness for C4 at the recognized sphere shape value 8. -/
theorem init_recognized_shape_some_witness :
    bodyTypeOfCode sphereObject.m_body_type = some BodyTypes.MP_SPHERE ∧
    ∃ s, (sphereObject.init 1 Vec3.zero).m_shape = some s :=
  ⟨rfl,
   (init_recognized_shape_some sphereObject 1 Vec3.zero BodyTypes.MP_SPHERE rfl).1
     (by decide)⟩

/-- Number of active registrations after addBody, as an if-expression. -/
theorem addBody_registrations (o : PhysicalObject) :
    o.addBody.m_registrations =
      if o.m_registrations = 0 then 1 else o.m_registrations := by
  unfold PhysicalObject.addBody
  split <;> simp_all

/-- Number of active registrations after removeBody. -/
theorem removeBody_registrations (o : PhysicalObject) :
    o.removeBody.m_registrations = o.m_registrations - 1 := by
  unfold PhysicalObject.removeBody
  split <;> simp_all

/-- Any sequence of addBody/removeBody calls preserves the at-most-one-
registration invariant. -/
theorem applyWorldOps_le_one (ops : List WorldOp) :
    ∀ o : PhysicalObject, o.m_registrations ≤ 1 →
      (applyWorldOps o ops).m_registrations ≤ 1 := by
  induction ops with
  | nil => exact fun o h => h
  | cons op ops ih =>
    intro o h
    refine ih (applyWorldOp o op) ?_
    cases op
    · show o.addBody.m_registrations ≤ 1
      rw [addBody_registrations]
      split <;> omega
    · show o.removeBody.m_registrations ≤ 1
      rw [removeBody_registrations]
      omega

/-- C2: starting from a state with at most one world registration, every
sequence of addBody/removeBody calls keeps at most one registration (the
body is never double-registered); repeated addBody, and the sequence
addBody-removeBody-addBody, each leave exactly one active registration;
and removeBody without a prior registration leaves the state
unchanged. -/
theorem body_registration_at_most_one (o : PhysicalObject)
    (h : o.m_registrations ≤ 1) :
    (∀ ops : List WorldOp, (applyWorldOps o ops).m_registrations ≤ 1) ∧
    o.addBody.addBody.m_registrations = 1 ∧
    o.addBody.removeBody.addBody.m_registrations = 1 ∧
    (o.m_registrations = 0 → o.removeBody = o) := by
  refine ⟨fun ops => applyWorldOps_le_one ops o h, ?_, ?_, ?_⟩
  · simp only [addBody_registrations]
    split_ifs <;> omega
  · simp only [addBody_registrations, removeBody_registrations]
    split_ifs <;> omega
  · intro h0
    unfold PhysicalObject.removeBody
    rw [if_pos h0]

/-- Witness for C2 at a freshly constructed object (zero
registrations). -/
theorem body_registration_at_most_one_witness :
    sampleStatic.m_registrations ≤ 1 ∧
    ((∀ ops : List WorldOp, (applyWorldOps sampleStatic ops).m_registrations ≤ 1) ∧
     sampleStatic.addBody.addBody.m_registrations = 1 ∧
     sampleStatic.addBody.removeBody.addBody.m_registrations = 1 ∧
     (sampleStatic.m_registrations = 0 → sampleStatic.removeBody = sampleStatic)) :=
  ⟨Nat.zero_le 1, body_registration_at_most_one sampleStatic (Nat.zero_le 1)⟩

/-- When the object is dynamic after the height check, update writes the
motion-state transform, corrected by the graphical offset, back to the
scene object and changes nothing else. -/
theorem update_eq_of_dynamic (o : PhysicalObject) (dt : ℚ)
    (hd : o.afterHeightCheck.m_is_dynamic = true) :
    o.update dt =
      { o.afterHeightCheck with
        m_object :=
          ⟨Vec3.sub o.afterHeightCheck.m_motion_state.origin
             o.afterHeightCheck.m_graphical_offset,
           o.afterHeightCheck.m_motion_state.rotation⟩ } := by
  simp [PhysicalObject.update, hd]

/-- When the object is not dynamic after the height check, update is the
height check alone. -/
theorem update_eq_of_static (o : PhysicalObject) (dt : ℚ)
    (hs : o.afterHeightCheck.m_is_dynamic = false) :
    o.update dt = o.afterHeightCheck := by
  simp [PhysicalObject.update, hs]

/-- C5: update(dt) writes the simulated transform (corrected by the
graphical offset) back to the owning scene object only when the object
is dynamic; for a static or kinematic object it changes nothing, except
that when the height-based reset condition holds it triggers reset(). -/
theorem update_writes_back_only_when_dynamic (o : PhysicalObject) (dt : ℚ) :
    (o.m_is_dynamic = true →
      o.update dt =
        { o.afterHeightCheck with
          m_object :=
            ⟨Vec3.sub o.afterHeightCheck.m_motion_state.origin
               o.afterHeightCheck.m_graphical_offset,
             o.afterHeightCheck.m_motion_state.rotation⟩ }) ∧
    (o.m_is_dynamic = false →
      (o.tooLow = true → o.update dt = o.reset) ∧
      (o.tooLow = false → o.update dt = o)) := by
  constructor
  · intro hd
    exact update_eq_of_dynamic o dt
      (by rw [PhysicalObject.afterHeightCheck_is_dynamic, hd])
  · intro hs
    have h0 := update_eq_of_static o dt
      (by rw [PhysicalObject.afterHeightCheck_is_dynamic, hs])
    constructor
    · intro ht
      rw [h0]
      unfold PhysicalObject.afterHeightCheck
      rw [if_pos ht]
    · intro ht
      rw [h0]
      unfold PhysicalObject.afterHeightCheck
      rw [if_neg]
      simp [ht]

/-- Witness for C5 at a concrete static object whose height check does
not fire: update(1) changes nothing. -/
theorem update_writes_back_only_when_dynamic_witness :
    sampleStatic.m_is_dynamic = false ∧ sampleStatic.tooLow = false ∧
    sampleStatic.update 1 = sampleStatic :=
  ⟨rfl, rfl, ((update_writes_back_only_when_dynamic sampleStatic 1).2 rfl).2 rfl⟩

/-- C1: for a dynamic object whose captured body start transform is
consistent with the captured scene snapshot (as init establishes),
reset() followed by update(0) writes the initial scene transform back to
the scene object exactly, and the body's linear and angular velocities
are zero. -/
theorem reset_then_update_restores_initial_transform (o : PhysicalObject)
    (hd : o.m_is_dynamic = true) (hc : o.offsetConsistent) :
    (o.reset.update 0).m_object.position = o.m_init_xyz ∧
    (o.reset.update 0).m_object.rotation = o.m_init_hpr ∧
    (o.reset.update 0).m_body.linear_velocity = Vec3.zero ∧
    (o.reset.update 0).m_body.angular_velocity = Vec3.zero := by
  obtain ⟨h1, h2⟩ := hc
  have hdyn : o.reset.afterHeightCheck.m_is_dynamic = true := by
    rw [PhysicalObject.reset_afterHeightCheck]
    exact hd
  have hu := update_eq_of_dynamic o.reset 0 hdyn
  rw [PhysicalObject.reset_afterHeightCheck] at hu
  rw [hu]
  refine ⟨?_, ?_, rfl, rfl⟩
  · show Vec3.sub o.m_init_pos.origin o.m_graphical_offset = o.m_init_xyz
    rw [h1, Vec3.add_sub_cancel_model]
  · exact h2

/-- Witness for C1 at a concrete dynamic initialized box object. -/
theorem reset_then_update_restores_initial_transform_witness :
    sampleObject.m_is_dynamic = true ∧
    (sampleObject.reset.update 0).m_object.position = sampleObject.m_init_xyz ∧
    (sampleObject.reset.update 0).m_object.rotation = sampleObject.m_init_hpr ∧
    (sampleObject.reset.update 0).m_body.linear_velocity = Vec3.zero ∧
    (sampleObject.reset.update 0).m_body.angular_velocity = Vec3.zero :=
  ⟨rfl, reset_then_update_restores_initial_transform sampleObject rfl ⟨rfl, rfl⟩⟩

/-- C6 counterexample: the PlayerKart constructor hard-codes
m_penalty_time(0.0) in its initializer list, so no construction yields a
positive penalty: immediately after construction the timer is 0 and
earlyStartPenalty() returns 0. -/
theorem construct_penalty_zero :
    PlayerKart.construct.m_penalty_time = 0 ∧
    PlayerKart.construct.earlyStartPenalty = 0 := by
  refine ⟨rfl, ?_⟩
  simp [PlayerKart.earlyStartPenalty, PlayerKart.construct]

/-- The penalty timer after n update steps with a positive fixed dt is
the initial timer minus n·dt, clamped at zero. -/
theorem updateN_penalty_time (k : PlayerKart) (dt : ℚ) (hdt : 0 < dt)
    (h0 : 0 ≤ k.m_penalty_time) :
    ∀ n : Nat, (k.updateN n dt).m_penalty_time =
      max (k.m_penalty_time - n * dt) 0 := by
  intro n
  induction n generalizing k with
  | zero => simp [PlayerKart.updateN, max_eq_left h0]
  | succ n ih =>
    have hstep : k.updateN (n + 1) dt = (k.update dt).updateN n dt := rfl
    rw [hstep, ih (k.update dt) (le_max_right _ _)]
    have hupd : (k.update dt).m_penalty_time = max (k.m_penalty_time - dt) 0 := rfl
    rw [hupd]
    have hnd : 0 ≤ (n : ℚ) * dt := mul_nonneg (Nat.cast_nonneg n) hdt.le
    have hc : ((n + 1 : Nat) : ℚ) * dt = n * dt + dt := by push_cast; ring
    rcases le_total (k.m_penalty_time - dt) 0 with h | h
    · rw [max_eq_right h]
      rw [max_eq_right (by linarith : (0:ℚ) - n * dt ≤ 0)]
      rw [max_eq_right (by rw [hc]; linarith)]
    · rw [max_eq_left h, hc]
      congr 1
      ring

/-- C6 (amended): earlyStartPenalty() returns 1 exactly when the penalty
timer is positive; the constructor initializes the timer to zero (so
immediately after construction it returns 0, not 1); one update never
drives the timer below zero (clamping); and repeated update(dt) calls
with positive dt eventually drive the timer to zero and make
earlyStartPenalty() return 0. -/
theorem earlyStartPenalty_iff_timer_pos (k : PlayerKart) (dt : ℚ)
    (hdt : 0 < dt) :
    (k.earlyStartPenalty = 1 ↔ 0 < k.m_penalty_time) ∧
    PlayerKart.construct.m_penalty_time = 0 ∧
    0 ≤ (k.update dt).m_penalty_time ∧
    ∃ n : Nat, (k.updateN n dt).m_penalty_time = 0 ∧
      (k.updateN n dt).earlyStartPenalty = 0 := by
  refine ⟨?_, rfl, ?_, ?_⟩
  · unfold PlayerKart.earlyStartPenalty
    split
    · simp_all
    · simp_all
  · show 0 ≤ max (k.m_penalty_time - dt) 0
    exact le_max_right _ _
  · obtain ⟨n, hn⟩ := exists_nat_ge ((k.update dt).m_penalty_time / dt)
    have hle : (k.update dt).m_penalty_time ≤ n * dt := by
      rw [div_le_iff₀ hdt] at hn
      exact hn
    have hz : (k.updateN (n + 1) dt).m_penalty_time = 0 := by
      have hstep : k.updateN (n + 1) dt = (k.update dt).updateN n dt := rfl
      rw [hstep, updateN_penalty_time (k.update dt) dt hdt (le_max_right _ _) n]
      exact max_eq_right (by linarith)
    refine ⟨n + 1, hz, ?_⟩
    unfold PlayerKart.earlyStartPenalty
    rw [hz]
    simp

/-- Witness for the amended C6 at a concrete kart with penalty timer 2
and dt = 1. -/
theorem earlyStartPenalty_iff_timer_pos_witness :
    (0:ℚ) < 1 ∧
    ((kLate.earlyStartPenalty = 1 ↔ 0 < kLate.m_penalty_time) ∧
     PlayerKart.construct.m_penalty_time = 0 ∧
     0 ≤ (kLate.update 1).m_penalty_time ∧
     ∃ n : Nat, (kLate.updateN n 1).m_penalty_time = 0 ∧
       (kLate.updateN n 1).earlyStartPenalty = 0) :=
  ⟨zero_lt_one, earlyStartPenalty_iff_timer_pos kLate 1 zero_lt_one⟩

/-- A reported box hit lies on the query segment. -/
theorem segmentBoxHit_on_segment (a b c he p : Vec3)
    (h : segmentBoxHit a b c he = some p) : onSegment a b p := by
  unfold segmentBoxHit at h
  rcases hx : slabInterval a.x (Vec3.sub b a).x (c.x - he.x) (c.x + he.x)
    with _ | ix
  · rw [hx] at h
    simp at h
  rw [hx] at h
  simp only [Option.some_bind] at h
  rcases hy : slabInterval a.y (Vec3.sub b a).y (c.y - he.y) (c.y + he.y)
    with _ | iy
  · rw [hy] at h
    simp at h
  rw [hy] at h
  simp only [Option.some_bind] at h
  rcases hz : slabInterval a.z (Vec3.sub b a).z (c.z - he.z) (c.z + he.z)
    with _ | iz
  · rw [hz] at h
    simp at h
  rw [hz] at h
  simp only [Option.some_bind] at h
  split at h
  · refine ⟨max (max (max ix.1 iy.1) iz.1) 0, le_max_right _ _, ?_,
      (Option.some.inj h).symm⟩
    exact le_trans (by assumption) (min_le_right _ _)
  · exact absurd h (by simp)

/-- C8: if castRay reports a hit, the returned hit point lies on the
segment between the two query points, and the result differs from the
explicit no-hit result. -/
theorem castRay_hit_lies_on_segment (o : PhysicalObject) (a b p : Vec3)
    (h : o.castRay a b = some p) :
    onSegment a b p ∧ o.castRay a b ≠ none := by
  refine ⟨?_, by rw [h]; simp⟩
  unfold PhysicalObject.castRay at h
  rcases hm : o.m_shape with _ | s <;> rw [hm] at h
  · exact absurd h (by simp)
  · exact segmentBoxHit_on_segment _ _ _ _ _ h

/-- Witness for C8: a concrete downward ray into a unit box is reported
as hitting at the box surface point, on the segment. -/
theorem castRay_hit_lies_on_segment_witness :
    rayObject.castRay ⟨1, 2, 6⟩ ⟨1, 2, 4⟩ = some ⟨1, 2, 5⟩ ∧
    onSegment ⟨1, 2, 6⟩ ⟨1, 2, 4⟩ ⟨1, 2, 5⟩ ∧
    rayObject.castRay ⟨1, 2, 6⟩ ⟨1, 2, 4⟩ ≠ none := by
  have h : rayObject.castRay ⟨1, 2, 6⟩ ⟨1, 2, 4⟩ = some ⟨1, 2, 5⟩ := by
    norm_num [rayObject, PhysicalObject.castRay, segmentBoxHit, slabInterval,
      CollisionShape.halfExtents, Vec3.sub, Vec3.add, Vec3.smul, max_def, min_def]
  have h2 := castRay_hit_lies_on_segment rayObject ⟨1, 2, 6⟩ ⟨1, 2, 4⟩ ⟨1, 2, 5⟩ h
  exact ⟨h, h2.1, h2.2⟩
